import Mathlib

/-!
Verification of the screen-stack + event-routing runtime of the
`terminal-arcade` repository, as a shallow embedding in Lean 4.

The repository superposes several revisions of its own architecture; each
embedded definition names the source file and item it is translated from.
Channel sends are modelled as appending to an explicit FIFO list, `panic!`
branches of infallible conversions are modelled as `Option.none`, and
screen implementations (trait objects) are modelled as an opaque type
parameter `σ` together with explicit hook functions where the runtime
calls into screen code.
-/

namespace TerminalArcade

/-- Opaque payload of a `crossterm::event::KeyEvent`; the runtime never
inspects its fields, it only carries them, so a token value suffices. -/
structure KeyEvent where
  code : Nat
deriving DecidableEq, Repr

/-- Opaque payload of a `crossterm::event::MouseEvent`. -/
structure MouseEvent where
  kind : Nat
deriving DecidableEq, Repr

/-- `FocusChange` from `src/events/tui.rs` (also used by `src/app.rs`). -/
inductive FocusChange where
  | Lost
  | Gained
deriving DecidableEq, Repr

/-!
## The `src/events/*` revision

`events/tui.rs` (`TuiEvent` with a `Hello` handshake and an `Input`
sub-enum), `events/app.rs` (`AppEvent` with a fallible conversion), and
`events/mod.rs` (`TuiAppMiddleman`, the per-tick input buffer).
-/

namespace EventsRev

/-- `InputEvent` from `src/events/tui.rs`. -/
inductive InputEvent where
  | Key (key : KeyEvent)
  | Mouse (mouse : MouseEvent)
deriving DecidableEq, Repr

/-- `TuiEvent` from `src/events/tui.rs`. -/
inductive TuiEvent where
  | Hello
  | Tick
  | Render
  | Resize (w h : Nat)
  | Focus (change : FocusChange)
  | Paste (text : String)
  | Input (input : InputEvent)
deriving DecidableEq, Repr

/-- `AppEvent` from `src/events/app.rs`. -/
inductive AppEvent where
  | Tick
  | Render
  | CloseApp
  | QuitApp
  | CloseActiveScreen
  | ErrorOccurred (msg : String)
  | ChangeFocus (change : FocusChange)
  | PasteText (text : String)
  | ResizeTerminal (w h : Nat)
  | UserInputs (inputs : List InputEvent)
deriving DecidableEq, Repr

/-- `TryFrom<TuiEvent> for AppEvent` from `src/events/app.rs` lines 61-97:
`Hello` and `Input(_)` are rejected with an error, everything else maps
one-to-one. -/
def AppEvent.try_from_tui_event : TuiEvent → Except String AppEvent
  | .Tick => .ok .Tick
  | .Render => .ok .Render
  | .Focus change => .ok (.ChangeFocus change)
  | .Paste text => .ok (.PasteText text)
  | .Resize w h => .ok (.ResizeTerminal w h)
  | .Hello =>
      .error "the tui said hi! unfortunately this is a language incomprehensible to AppEvent speakers."
  | .Input _ => .error "cannot convert individual input event to app event"

/-- `TuiAppMiddleman` from `src/events/mod.rs`: the buffer accumulating
input events between two ticks. -/
structure TuiAppMiddleman where
  input_buffer : List InputEvent
deriving DecidableEq, Repr

/-- `TuiAppMiddleman::handle_tui_event` from `src/events/mod.rs` lines
61-81.  Returns the produced `AppEvent` (if any) together with the
updated middleman state.  `Hello` is only logged; a `Tick` on an empty
buffer produces nothing, otherwise the buffer is drained into a single
`UserInputs` event; inputs are pushed onto the buffer; remaining events go
through the infallible `try_into().unwrap()` conversion. -/
def TuiAppMiddleman.handle_tui_event (m : TuiAppMiddleman) :
    TuiEvent → Option AppEvent × TuiAppMiddleman
  | .Hello => (none, m)
  | .Tick =>
      if m.input_buffer.isEmpty then
        (none, m)
      else
        (some (.UserInputs m.input_buffer), { input_buffer := [] })
  | .Input input => (none, { input_buffer := m.input_buffer ++ [input] })
  | e => ((AppEvent.try_from_tui_event e).toOption, m)

/-- Feeds a sequence of `TuiEvent`s through the middleman, collecting the
produced `AppEvent`s in order. -/
def TuiAppMiddleman.handle_tui_events (m : TuiAppMiddleman) :
    List TuiEvent → TuiAppMiddleman × List AppEvent
  | [] => (m, [])
  | e :: rest =>
      let step := m.handle_tui_event e
      let tail := step.2.handle_tui_events rest
      (tail.1, step.1.toList ++ tail.2)

/-- `true` unless the event is a `UserInputs` carrying an empty list. -/
def AppEvent.nonempty_if_user_inputs : AppEvent → Bool
  | .UserInputs inputs => !inputs.isEmpty
  | _ => true

end EventsRev

/-!
## The `src/app.rs` + `src/event.rs` revision

`App` with a `RunState` that carries a forced flag while quitting, its own
`AppEvent`/`BufferedAppEvent` pair, and the per-tick buffer drained by
`App::tick`.  The event channel is modelled as an explicit FIFO queue of
sent events.  The `TuiEvent` shape below is the one consumed by the
`From<TuiEvent> for AppEvent` impl of this revision (`src/app.rs` lines 317-337).
-/

namespace AppRs

/-- `RunState` from `src/app.rs` lines 38-49. -/
inductive RunState where
  | Pending
  | Running
  | Quitting (forced : Bool)
deriving DecidableEq, Repr

/-- `BufferedAppEvent` from `src/app.rs` lines 299-305. -/
inductive BufferedAppEvent where
  | Key (key : KeyEvent)
  | Mouse (mouse : MouseEvent)
deriving DecidableEq, Repr

/-- `AppEvent` from `src/app.rs` lines 266-295. -/
inductive AppEvent where
  | Tick
  | Render
  | Quit (forced : Bool)
  | Error (msg : String)
  | Events (events : List BufferedAppEvent)
  | Resize (w h : Nat)
  | Paste (text : String)
  | Focus (change : FocusChange)
  | Buffer (event : BufferedAppEvent)
deriving DecidableEq, Repr

/-- The `TuiEvent` shape consumed by the `App` of this revision (see the match
arms of `From<TuiEvent> for AppEvent` in `src/app.rs` lines 317-337). -/
inductive TuiEvent where
  | Init
  | Tick
  | Render
  | Error (msg : String)
  | Resize (w h : Nat)
  | Paste (text : String)
  | Focus (change : FocusChange)
  | Key (key : KeyEvent)
  | Mouse (mouse : MouseEvent)
deriving DecidableEq, Repr

/-- `Event` from `src/event.rs`. -/
inductive Event where
  | Tui (event : TuiEvent)
  | App (event : AppEvent)
deriving DecidableEq, Repr

/-- `From<TuiEvent> for AppEvent` from `src/app.rs` lines 317-337.  The
source `panic!`s on `TuiEvent::Init`; the panic is modelled as `none`, so
the conversion produces no event there. -/
def AppEvent.from_tui_event : TuiEvent → Option AppEvent
  | .Init => none
  | .Tick => some .Tick
  | .Render => some .Render
  | .Error msg => some (.Error msg)
  | .Resize w h => some (.Resize w h)
  | .Paste text => some (.Paste text)
  | .Focus change => some (.Focus change)
  | .Key key => some (.Buffer (.Key key))
  | .Mouse mouse => some (.Buffer (.Mouse mouse))

/-- The state of `App` (`src/app.rs` lines 52-69) that the embedded
operations touch: the run state, the per-tick buffer of stateful events,
and the contents of the unbounded event channel (`queue`, FIFO: sends
append at the tail). -/
structure App where
  run_state : RunState
  tick_event_buffer : List BufferedAppEvent
  queue : List Event
deriving DecidableEq, Repr

/-- `App::send_app_event` from `src/app.rs` lines 238-246 (the channel
send is modelled as appending to the queue). -/
def App.send_app_event (app : App) (app_event : AppEvent) : App :=
  { app with queue := app.queue ++ [Event.App app_event] }

/-- `App::tick` from `src/app.rs` lines 158-164: if the tick buffer is
nonempty, drain it entirely into a single `Events` app event. -/
def App.tick (app : App) : App :=
  if app.tick_event_buffer.isEmpty then
    app
  else
    { app with tick_event_buffer := [] }.send_app_event
      (.Events app.tick_event_buffer)

/-- `App::indicate_quit` from `src/app.rs` lines 254-261: does nothing if
the run state is already quitting, otherwise sets `Quitting(forced)`. -/
def App.indicate_quit (app : App) (forced : Bool) : App :=
  match app.run_state with
  | .Quitting _ => app
  | _ => { app with run_state := .Quitting forced }

/-- `App::quit` from `src/app.rs` lines 175-178. -/
def App.quit (app : App) (forced : Bool) : App :=
  app.indicate_quit forced

/-- `App::handle_app_event` from `src/app.rs` lines 122-142.  Arms whose
bodies only perform terminal I/O or are `TODO` no-ops (`render`, `error`,
`paste`, `focus`, `key`, `mouse`) leave the modelled state unchanged;
`resize` additionally sends a `Render` event (lines 193-199). -/
def App.handle_app_event (app : App) : AppEvent → App
  | .Tick => app.tick
  | .Render => app
  | .Quit forced => app.quit forced
  | .Error _ => app
  | .Resize _ _ => app.send_app_event .Render
  | .Paste _ => app
  | .Focus _ => app
  | .Events _ => app
  | .Buffer event =>
      { app with tick_event_buffer := app.tick_event_buffer ++ [event] }

/-- `App::handle_tui_event` from `src/app.rs` lines 108-119: no incoming
event does nothing, `Init` is only logged, anything else is converted and
sent onto the app channel. -/
def App.handle_tui_event (app : App) : Option TuiEvent → App
  | none => app
  | some .Init => app
  | some e =>
      match AppEvent.from_tui_event e with
      | some app_event => app.send_app_event app_event
      | none => app

/-- The break condition of `App::event_loop` (`src/app.rs` lines 94-105):
the loop breaks exactly when the run state is `Quitting`. -/
def App.event_loop_breaks (app : App) : Bool :=
  match app.run_state with
  | .Quitting _ => true
  | _ => false

end AppRs

/-!
## The `src/tui.rs` terminal event source

`Tui::event_loop` (modelled on the sequence of events it sends for a given
trace of `select!` outcomes) and `Tui::stop` (the two-phase shutdown loop,
with one loop iteration standing for its 1 ms sleep).
-/

namespace TuiRs

/-- `crossterm::event::Event` as matched by `From<CrosstermEvent> for
TuiEvent` in `src/tui.rs` lines 354-365. -/
inductive CrosstermEvent where
  | Key (key : KeyEvent)
  | Mouse (mouse : MouseEvent)
  | Paste (text : String)
  | Resize (x y : Nat)
  | FocusLost
  | FocusGained
deriving DecidableEq, Repr

/-- `TuiEvent` from `src/tui.rs` lines 320-352. -/
inductive TuiEvent where
  | Init
  | Tick
  | Render
  | Error (msg : String)
  | Key (key : KeyEvent)
  | Mouse (mouse : MouseEvent)
  | Paste (text : String)
  | Resize (x y : Nat)
  | FocusLost
  | FocusGained
deriving DecidableEq, Repr

/-- `From<CrosstermEvent> for TuiEvent` from `src/tui.rs` lines 354-365. -/
def TuiEvent.from_crossterm : CrosstermEvent → TuiEvent
  | .Key key => .Key key
  | .Mouse mouse => .Mouse mouse
  | .Paste text => .Paste text
  | .Resize x y => .Resize x y
  | .FocusLost => .FocusLost
  | .FocusGained => .FocusGained

/-- The outcome of one `tokio::select!` race in `Tui::event_loop`
(`src/tui.rs` lines 153-174): cancellation, one of the two timers, or the
next item of the crossterm event stream. -/
inductive LoopBranch where
  | Cancelled
  | TickTimer
  | RenderTimer
  | StreamItem (event : CrosstermEvent)
  | StreamError (msg : String)
  | StreamClosed
deriving DecidableEq, Repr

/-- The body of the `loop` in `Tui::event_loop` (`src/tui.rs` lines
153-180): cancellation and a closed stream break out of the loop, every
other branch sends exactly one event and continues. -/
def event_loop_body : List LoopBranch → List TuiEvent
  | [] => []
  | .Cancelled :: _ => []
  | .StreamClosed :: _ => []
  | .TickTimer :: rest => .Tick :: event_loop_body rest
  | .RenderTimer :: rest => .Render :: event_loop_body rest
  | .StreamItem event :: rest =>
      TuiEvent.from_crossterm event :: event_loop_body rest
  | .StreamError msg :: rest => .Error msg :: event_loop_body rest

/-- `Tui::event_loop` from `src/tui.rs` lines 138-182: the events it sends
for a given trace of select outcomes.  One `Init` is sent before the loop
begins (line 148). -/
def event_loop_sends (branches : List LoopBranch) : List TuiEvent :=
  TuiEvent.Init :: event_loop_body branches

/-- Result of `Tui::stop`: `ok` for `Ok(())`, `fatal` for the
"could not abort event task thread after 200ms" error. -/
inductive StopResult where
  | ok
  | fatal
deriving DecidableEq, Repr

/-- Observable outcome of `Tui::stop`: its result, the value of
`cancel_timer` (in ms) when it returned, and whether `abort()` had been
issued by then. -/
structure StopOutcome where
  result : StopResult
  time : Nat
  aborted : Bool
deriving DecidableEq, Repr

/-- The `while !self.event_task.is_finished()` loop of `Tui::stop`
(`src/tui.rs` lines 220-244).  `finished t` tells whether the event task
is finished when `cancel_timer` reads `t` ms; each iteration sleeps 1 ms
and bumps the timer, issues `abort()` once past the 100 ms soft bound, and
fails past the 200 ms hard bound. -/
def stop_loop (finished : Nat → Bool) (timer : Nat) (aborting : Bool) :
    StopOutcome :=
  if finished timer then
    ⟨.ok, timer, aborting⟩
  else
    let t := timer + 1
    if h1 : 100 < t ∧ aborting = false then
      stop_loop finished t true
    else if h2 : 200 < t then
      ⟨.fatal, t, aborting⟩
    else
      stop_loop finished t aborting
termination_by ((!aborting).toNat, 201 - timer)
decreasing_by
· apply Prod.Lex.left
  rw [h1.2]
  decide
· apply Prod.Lex.right
  omega

/-- `Tui::stop` from `src/tui.rs` lines 220-244: cancels the token
(externally visible only through `finished`) and runs the wait loop with
a zeroed timer. -/
def stop (finished : Nat → Bool) : StopOutcome :=
  stop_loop finished 0 false

end TuiRs

/-!
## The `src/ui/mod.rs` revision of the screen-stack manager

`Ui` owns a stack of `ScreenHandle`s (last element = active screen).
Concrete screen implementations are opaque: the type parameter `σ` stands
for the boxed screen trait object, and a hook `σ → σ × List (Event σ)`
stands for the per-screen `update` method (which, per
`src/ui/screens/handle.rs` lines 79-81, receives a clone of the handle
state, may mutate only the screen itself, and may send events).  The
fields of the handle state are the ones the sources read
(`state.run_state`, `state.captures_mouse`, `state.title`).
`src/ui/screens/handler.rs` is the sibling `ScreenHandler` revision; its
`event` routing (lines 89-95) is embedded below as well.
-/

namespace UiRev

/-- `UiRunState` from `src/ui/mod.rs` lines 57-68. -/
inductive UiRunState where
  | Running
  | Closing
  | Finished
deriving DecidableEq, Repr

/-- The per-screen handle state, with the fields the embedded sources
use: `run_state`, `title` and `captures_mouse` (read in
`src/ui/mod.rs` and `src/ui/screens/handler.rs`). -/
structure ScreenState where
  run_state : UiRunState
  title : String
  captures_mouse : Bool
deriving DecidableEq, Repr

/-- `ScreenHandle` from `src/ui/screens/handle.rs`: the opaque screen
(`σ`) together with its state. -/
structure ScreenHandle (σ : Type) where
  screen : σ
  state : ScreenState
deriving DecidableEq, Repr

/-- `ScreenEvent` from `src/events/screen.rs`. -/
inductive ScreenEvent (σ : Type) where
  | Close
  | Finish
  | Error (msg : String)
  | Rename (title : String)
  | Create (handle : ScreenHandle σ)
deriving DecidableEq, Repr

/-- The `Event` bus message of this revision, with the variants its
sources construct and match (`Event::App`, `Event::Screen`,
`Event::Input`). -/
inductive Event (σ : Type) where
  | App (event : EventsRev.AppEvent)
  | Screen (event : ScreenEvent σ)
  | Input (event : EventsRev.InputEvent)
deriving DecidableEq, Repr

/-- The per-screen `update` hook (`Screen::update`, called through
`ScreenHandle::update`, `src/ui/screens/handle.rs` lines 79-81): client
code that may mutate the screen and send events. -/
def UpdateHook (σ : Type) : Type :=
  σ → σ × List (Event σ)

/-- `ScreenHandle::update` from `src/ui/screens/handle.rs` lines 79-81:
delegates to the update hook of the screen; the handle state itself is
passed by clone and stays untouched. -/
def ScreenHandle.update (hook : UpdateHook σ) (handle : ScreenHandle σ) :
    ScreenHandle σ × List (Event σ) :=
  let step := hook handle.screen
  ({ handle with screen := step.1 }, step.2)

/-- `Ui` from `src/ui/mod.rs` lines 72-83. -/
structure Ui (σ : Type) where
  run_state : UiRunState
  screens : List (ScreenHandle σ)
deriving DecidableEq, Repr

/-- What one `Ui::update` call produced: the updated `Ui`, the screen it
closed (popped), if any, and the events it sent on the bus. -/
structure UpdateResult (σ : Type) where
  ui : Ui σ
  closed : Option (ScreenHandle σ)
  sent : List (Event σ)
deriving DecidableEq, Repr

/-- `Ui::update` from `src/ui/mod.rs` lines 119-141, arm for arm:
an empty stack finishes the UI; a `Finished` active screen is popped and
returned (finishing the UI if the stack became empty); a `Closing` active
screen, or `Running`/`Running`, delegates to the update hook of the screen; a
`Closing` UI over a `Running` screen sends `ScreenEvent::Close`; a
`Finished` UI otherwise does nothing. -/
def Ui.update (hook : UpdateHook σ) (ui : Ui σ) : UpdateResult σ :=
  match ui.screens.getLast? with
  | none => ⟨{ ui with run_state := .Finished }, none, []⟩
  | some active_screen =>
      match ui.run_state, active_screen.state.run_state with
      | _, .Finished =>
          let rest := ui.screens.dropLast
          let ui' :=
            if rest.isEmpty then
              { ui with screens := rest, run_state := .Finished }
            else
              { ui with screens := rest }
          ⟨ui', some active_screen, []⟩
      | _, .Closing | .Running, .Running =>
          let step := ScreenHandle.update hook active_screen
          ⟨{ ui with screens := ui.screens.dropLast ++ [step.1] }, none,
            step.2⟩
      | .Closing, .Running => ⟨ui, none, [Event.Screen .Close]⟩
      | .Finished, .Running => ⟨ui, none, []⟩

/-- `Ui::quit` from `src/ui/mod.rs` lines 187-190: clears every screen
and marks the UI finished.  It calls into no screen code and the returned
list of sent events is empty, mirroring that the body consists of exactly
`clear_screens()` and a run-state assignment. -/
def Ui.quit (ui : Ui σ) : Ui σ × List (Event σ) :=
  ({ ui with screens := [], run_state := .Finished }, [])

/-- `ScreenHandler` from `src/ui/screens/handler.rs` lines 26-39. -/
structure ScreenHandler (σ : Type) where
  run_state : UiRunState
  screens : List (ScreenHandle σ)
deriving DecidableEq, Repr

/-- The per-screen event hook (`ScreenHandle::event`,
`src/ui/screens/handle.rs` lines 84-100): client code receiving the
routed event. -/
def EventHook (σ : Type) : Type :=
  ScreenHandle σ → Event σ → ScreenHandle σ

/-- `ScreenHandler::event` from `src/ui/screens/handler.rs` lines 89-95:
delegate to the active screen if there is one, otherwise fail with the
"no screens left in stack to receive events" error. -/
def ScreenHandler.event (hook : EventHook σ) (handler : ScreenHandler σ)
    (event : Event σ) : Except String (ScreenHandler σ) :=
  match handler.screens.getLast? with
  | some screen =>
      .ok { handler with
              screens := handler.screens.dropLast ++ [hook screen event] }
  | none => .error "no screens left in stack to receive events"

end UiRev

/-!
## The `src/core/handler.rs` + `src/ui/screens/mod.rs` revision

`ScreenState` carries the `screen_created` pending-child slot; the
`Handler::handle_active_screen` consumes it with `Option::take` and
spawns at most one child per pass.  `σ` stands for the `Screens` enum
(the concrete screen values); `init_state` models the `Screen::initial_state`
trait method and `close_hook` the `Screen::close` one.
-/

namespace CoreRev

/-- `OpenStatus` from `src/ui/screens/mod.rs` lines 61-64. -/
inductive OpenStatus where
  | Open
  | Closed
deriving DecidableEq, Repr

/-- `ScreenKind` from `src/ui/screens/mod.rs` lines 79-82. -/
inductive ScreenKind where
  | Normal
  | Popup
deriving DecidableEq, Repr

/-- `ScreenState` from `src/ui/screens/mod.rs` lines 88-104.  A controls
entry is a pair of shortcut and description strings. -/
structure ScreenState (σ : Type) where
  title : String
  kind : ScreenKind
  open_status : OpenStatus
  controls_entries : Option (List (String × String))
  screen_created : Option σ
deriving DecidableEq, Repr

/-- `ScreenState::new` from `src/ui/screens/mod.rs` lines 109-121. -/
def ScreenState.new (title : String) (kind : ScreenKind)
    (controls_entries : Option (List (String × String))) : ScreenState σ :=
  { title := title
    kind := kind
    open_status := .Open
    controls_entries := controls_entries
    screen_created := none }

/-- `ScreenState::set_screen_created` from `src/ui/screens/mod.rs` lines
123-127: overwrites the slot with the given screen. -/
def ScreenState.set_screen_created (state : ScreenState σ) (screen : σ) :
    ScreenState σ :=
  { state with screen_created := some screen }

/-- `ScreenAndState` from `src/ui/screens/mod.rs` lines 202-208. -/
structure ScreenAndState (σ : Type) where
  screen : σ
  state : ScreenState σ
deriving DecidableEq, Repr

/-- `ScreenAndState::new` from `src/ui/screens/mod.rs` lines 211-215,
with `init_state` standing for the `Screen::initial_state` method. -/
def ScreenAndState.new (init_state : σ → ScreenState σ) (screen : σ) :
    ScreenAndState σ :=
  { screen := screen, state := init_state screen }

/-- `ScreenAndState::close` from `src/ui/screens/mod.rs` lines 218-221,
with `close_hook` standing for the `Screen::close` method. -/
def ScreenAndState.close (close_hook : σ → σ) (sas : ScreenAndState σ) :
    ScreenAndState σ :=
  { screen := close_hook sas.screen
    state := { sas.state with open_status := .Closed } }

/-- `ScreenHandler` from `src/core/handler.rs` lines 81-87. -/
structure ScreenHandler (σ : Type) where
  screens : List (ScreenAndState σ)
deriving DecidableEq, Repr

/-- `ScreenHandler::spawn_screen` from `src/core/handler.rs` lines
123-125. -/
def ScreenHandler.spawn_screen (init_state : σ → ScreenState σ)
    (handler : ScreenHandler σ) (screen : σ) : ScreenHandler σ :=
  { screens := handler.screens ++ [ScreenAndState.new init_state screen] }

/-- `ScreenHandler::close_active_screen` from `src/core/handler.rs` lines
130-136: run `close` on the active screen if there is one, then pop and
return it. -/
def ScreenHandler.close_active_screen (close_hook : σ → σ)
    (handler : ScreenHandler σ) :
    ScreenHandler σ × Option (ScreenAndState σ) :=
  (⟨handler.screens.dropLast⟩,
    handler.screens.getLast?.map (ScreenAndState.close close_hook))

/-- `Handler::quit` from `src/core/handler.rs` lines 197-203: closes
active screens until none remain (terminal-rule teardown is external). -/
def Handler.quit (close_hook : σ → σ) (handler : ScreenHandler σ) :
    ScreenHandler σ :=
  if handler.screens.isEmpty then
    handler
  else
    Handler.quit close_hook
      (handler.close_active_screen close_hook).1
termination_by handler.screens.length
decreasing_by
  simp only [ScreenHandler.close_active_screen, List.length_dropLast]
  simp only [List.isEmpty_eq_true] at *
  cases hs : handler.screens with
  | nil => simp_all
  | cons a l => simp [hs]

/-- `Handler::handle_active_screen` from `src/core/handler.rs` lines
285-301: quit if no screens remain; otherwise `take()` the active
pending-child slot of the active screen, close the active screen if it is `Closed`,
spawn the taken child if there was one, and quit if the stack is now
empty.  Returns the updated handler and whether the event loop should
break. -/
def Handler.handle_active_screen (init_state : σ → ScreenState σ)
    (close_hook : σ → σ) (handler : ScreenHandler σ) :
    ScreenHandler σ × Bool :=
  match handler.screens.getLast? with
  | none => (Handler.quit close_hook handler, true)
  | some active_screen =>
      let created := active_screen.state.screen_created
      let taken : ScreenAndState σ :=
        { active_screen with
            state := { active_screen.state with screen_created := none } }
      let h1 : ScreenHandler σ := ⟨handler.screens.dropLast ++ [taken]⟩
      let h2 :=
        if taken.state.open_status = .Closed then
          (h1.close_active_screen close_hook).1
        else
          h1
      let h3 :=
        match created with
        | some screen => h2.spawn_screen init_state screen
        | none => h2
      if h3.screens.isEmpty then
        (Handler.quit close_hook h3, true)
      else
        (h3, false)

end CoreRev

/-!
## Concrete fixtures

Small concrete values used to instantiate the theorems below.
-/

/-- A screen-update hook over `Nat` payloads that bumps a counter and
sends nothing: its invocation is observable as a payload change. -/
def counter_hook : UiRev.UpdateHook Nat :=
  fun n => (n + 1, [])

/-- An event hook over `Nat` payloads that leaves the screen unchanged. -/
def id_event_hook : UiRev.EventHook Nat :=
  fun handle _ => handle

/-- A screen handle whose run state is `Closing`. -/
def closing_screen : UiRev.ScreenHandle Nat :=
  ⟨0, ⟨.Closing, "screen", false⟩⟩

/-- A `Ui` that is `Closing` over a single `Closing` screen. -/
def closing_ui : UiRev.Ui Nat :=
  ⟨.Closing, [closing_screen]⟩

/-- A screen handle whose run state is `Finished`. -/
def finished_screen : UiRev.ScreenHandle Nat :=
  ⟨7, ⟨.Finished, "done", false⟩⟩

/-- A running `Ui` whose only (hence active) screen is `Finished`. -/
def finished_ui : UiRev.Ui Nat :=
  ⟨.Running, [finished_screen]⟩

/-- A screen handler with no screens at all. -/
def empty_handler : UiRev.ScreenHandler Nat :=
  ⟨.Running, []⟩

/-- A screen handler with one screen. -/
def one_screen_handler : UiRev.ScreenHandler Nat :=
  ⟨.Running, [closing_screen]⟩

/-- A sample routed event. -/
def sample_event : UiRev.Event Nat :=
  .App .Render

/-- A sample two-element input sequence. -/
def sample_inputs : List EventsRev.InputEvent :=
  [.Key ⟨1⟩, .Mouse ⟨2⟩]

/-- A sample initial-state function for `Nat`-coded screens. -/
def sample_init_state : Nat → CoreRev.ScreenState Nat :=
  fun _ => CoreRev.ScreenState.new "child" .Normal none

/-- A screen-and-state pair whose pending-child slot holds screen `9`. -/
def sample_sas : CoreRev.ScreenAndState Nat :=
  ⟨5, { title := "welcome"
        kind := .Normal
        open_status := .Open
        controls_entries := none
        screen_created := some 9 }⟩

/-!
## Theorems
-/

/-- C10: quit indication is idempotent — from `Quitting(b)` a further
`indicate_quit(f)` leaves the run state exactly `Quitting(b)`, while from
`Pending` or `Running` it sets `Quitting(f)`. -/
theorem indicate_quit_idempotent (buffer : List AppRs.BufferedAppEvent)
    (queue : List AppRs.Event) (forced b : Bool) :
    AppRs.App.indicate_quit ⟨.Quitting b, buffer, queue⟩ forced =
      ⟨.Quitting b, buffer, queue⟩ ∧
    AppRs.App.indicate_quit ⟨.Pending, buffer, queue⟩ forced =
      ⟨.Quitting forced, buffer, queue⟩ ∧
    AppRs.App.indicate_quit ⟨.Running, buffer, queue⟩ forced =
      ⟨.Quitting forced, buffer, queue⟩ :=
  ⟨rfl, rfl, rfl⟩

/-- C4: handling a `Quit` application event leaves the run state
`Quitting`, sends nothing further on the channel, and makes the driver
break condition of the driver loop true; `Ui::quit` clears every screen (leaving the
stack empty) and sends no event — in particular no `Close` round-trip and
no close hook runs, since its body is exactly a clear and a run-state
assignment. -/
theorem forced_quit_spec {σ : Type} (app : AppRs.App) (forced : Bool)
    (ui : UiRev.Ui σ) :
    (∃ b, (app.handle_app_event (.Quit forced)).run_state = .Quitting b) ∧
    (app.handle_app_event (.Quit forced)).event_loop_breaks = true ∧
    (app.handle_app_event (.Quit forced)).queue = app.queue ∧
    UiRev.Ui.quit ui = ({ ui with screens := [], run_state := .Finished }, []) := by
  have hquit : app.handle_app_event (.Quit forced) = app.indicate_quit forced := rfl
  cases hrs : app.run_state with
  | Pending =>
      refine ⟨⟨forced, ?_⟩, ?_, ?_, rfl⟩ <;>
        simp [hquit, AppRs.App.indicate_quit, AppRs.App.event_loop_breaks, hrs]
  | Running =>
      refine ⟨⟨forced, ?_⟩, ?_, ?_, rfl⟩ <;>
        simp [hquit, AppRs.App.indicate_quit, AppRs.App.event_loop_breaks, hrs]
  | Quitting b =>
      refine ⟨⟨b, ?_⟩, ?_, ?_, rfl⟩ <;>
        simp [hquit, AppRs.App.indicate_quit, AppRs.App.event_loop_breaks, hrs]

/-- C6: routing an event through the screen handler delegates it directly
to the active (top) screen when one exists, and returns the
"no screens left in stack to receive events" error when the stack is
empty. -/
theorem empty_stack_routing {σ : Type} (hook : UiRev.EventHook σ)
    (handler : UiRev.ScreenHandler σ) (event : UiRev.Event σ) :
    (handler.screens = [] →
      UiRev.ScreenHandler.event hook handler event =
        .error "no screens left in stack to receive events") ∧
    (∀ (xs : List (UiRev.ScreenHandle σ)) (top : UiRev.ScreenHandle σ),
      handler.screens = xs ++ [top] →
      UiRev.ScreenHandler.event hook handler event =
        .ok { handler with screens := xs ++ [hook top event] }) := by
  constructor
  · intro hempty
    simp [UiRev.ScreenHandler.event, hempty]
  · intro xs top htop
    simp [UiRev.ScreenHandler.event, htop, List.getLast?_concat,
      List.dropLast_concat]

/-- C6 witness: the two routing outcomes at concrete handlers. -/
theorem empty_stack_routing_witness :
    (UiRev.ScreenHandler.event id_event_hook empty_handler sample_event =
      .error "no screens left in stack to receive events") ∧
    (UiRev.ScreenHandler.event id_event_hook one_screen_handler sample_event =
      .ok { one_screen_handler with
              screens := [] ++ [id_event_hook closing_screen sample_event] }) :=
  ⟨(empty_stack_routing id_event_hook empty_handler sample_event).1 rfl,
    (empty_stack_routing id_event_hook one_screen_handler sample_event).2 []
      closing_screen rfl⟩

/-- C1: if the stack is non-empty and the run state of the active (top) screen
is `Finished`, `Ui::update` pops exactly that screen and returns it
(finishing the UI if the stack became empty); moreover no single call to
`Ui::update` ever pops more than one screen. -/
theorem pop_on_finish {σ : Type} (hook : UiRev.UpdateHook σ)
    (ui : UiRev.Ui σ) (xs : List (UiRev.ScreenHandle σ))
    (top : UiRev.ScreenHandle σ)
    (hscreens : ui.screens = xs ++ [top])
    (hfin : top.state.run_state = .Finished) :
    UiRev.Ui.update hook ui =
      ⟨if xs.isEmpty then { ui with screens := xs, run_state := .Finished }
        else { ui with screens := xs }, some top, []⟩ ∧
    ∀ (u : UiRev.Ui σ),
      u.screens.length ≤ (UiRev.Ui.update hook u).ui.screens.length + 1 := by
  constructor
  · unfold UiRev.Ui.update
    rw [hscreens, List.getLast?_concat, List.dropLast_concat]
    cases hru : ui.run_state <;> simp [hfin, hru]
  · intro u
    unfold UiRev.Ui.update
    cases hl : u.screens.getLast? with
    | none => simp
    | some a =>
        cases hru : u.run_state <;> cases ha : a.state.run_state <;>
          simp [hru, ha, List.length_dropLast, List.length_append] <;>
          (try split) <;> (try simp [List.length_dropLast]) <;> omega

/-- C1 witness: a running `Ui` with one `Finished` screen, which `update`
pops and returns. -/
theorem pop_on_finish_witness :
    (finished_ui.screens = [] ++ [finished_screen] ∧
      finished_screen.state.run_state = .Finished) ∧
    (UiRev.Ui.update counter_hook finished_ui =
      ⟨if ([] : List (UiRev.ScreenHandle Nat)).isEmpty then
          { finished_ui with screens := [], run_state := .Finished }
        else { finished_ui with screens := [] }, some finished_screen, []⟩ ∧
      ∀ (u : UiRev.Ui Nat),
        u.screens.length ≤
          (UiRev.Ui.update counter_hook u).ui.screens.length + 1) :=
  ⟨⟨rfl, rfl⟩,
    pop_on_finish counter_hook finished_ui [] finished_screen rfl rfl⟩

/-- C3 counterexample: with both the UI and its single active screen in
the `Closing` state, `Ui::update` does not wait — it invokes the
per-screen update hook, observably changing the state (the counter
payload of the screen goes from 0 to 1). -/
theorem closing_wait_counterexample :
    closing_ui.run_state = .Closing ∧
    closing_screen.state.run_state = .Closing ∧
    UiRev.Ui.update counter_hook closing_ui =
      ⟨⟨.Closing, [⟨1, closing_screen.state⟩]⟩, none, []⟩ ∧
    (UiRev.Ui.update counter_hook closing_ui).ui ≠ closing_ui := by
  refine ⟨rfl, rfl, ?_, ?_⟩ <;> decide

/-- C3 (amended): when the UI run state is `Closing` and the run
state of the active screen is also `Closing`, `Ui::update` delegates to the
per-screen update hook — exactly as in the `Running`/`Closing`
case — popping no screen; the events sent are those the hook itself
produces. -/
theorem closing_closing_delegates {σ : Type} (hook : UiRev.UpdateHook σ)
    (ui : UiRev.Ui σ) (xs : List (UiRev.ScreenHandle σ))
    (top : UiRev.ScreenHandle σ)
    (hscreens : ui.screens = xs ++ [top])
    (hui : ui.run_state = .Closing)
    (htop : top.state.run_state = .Closing) :
    UiRev.Ui.update hook ui =
      ⟨{ ui with screens := xs ++ [(UiRev.ScreenHandle.update hook top).1] },
        none, (UiRev.ScreenHandle.update hook top).2⟩ := by
  simp [UiRev.Ui.update, hscreens, hui, htop, List.getLast?_concat,
    List.dropLast_concat]

/-- C3 witness: the amended delegation at the concrete `Closing`/`Closing`
fixture. -/
theorem closing_closing_delegates_witness :
    (closing_ui.screens = [] ++ [closing_screen] ∧
      closing_ui.run_state = .Closing ∧
      closing_screen.state.run_state = .Closing) ∧
    UiRev.Ui.update counter_hook closing_ui =
      ⟨{ closing_ui with
          screens :=
            [] ++ [(UiRev.ScreenHandle.update counter_hook closing_screen).1] },
        none, (UiRev.ScreenHandle.update counter_hook closing_screen).2⟩ :=
  ⟨⟨rfl, rfl, rfl⟩,
    closing_closing_delegates counter_hook closing_ui [] closing_screen rfl
      rfl rfl⟩

/-- Feeding only input events to the middleman emits nothing and appends
them, in order, to the input buffer. -/
theorem handle_tui_events_inputs (m : EventsRev.TuiAppMiddleman)
    (inputs : List EventsRev.InputEvent) :
    m.handle_tui_events (inputs.map .Input) =
      (⟨m.input_buffer ++ inputs⟩, []) := by
  induction inputs generalizing m with
  | nil => simp [EventsRev.TuiAppMiddleman.handle_tui_events]
  | cons i rest ih =>
      simp [EventsRev.TuiAppMiddleman.handle_tui_events,
        EventsRev.TuiAppMiddleman.handle_tui_event, ih]

/-- C2 counterexample: a `Tick` arriving on an empty input buffer (the
`N = 0` instance of the claim) produces no application event at all — in
particular not the `UserInputs []` event the claim requires. -/
theorem tick_flush_counterexample :
    EventsRev.TuiAppMiddleman.handle_tui_event ⟨[]⟩ .Tick = (none, ⟨[]⟩) ∧
    (EventsRev.TuiAppMiddleman.handle_tui_event ⟨[]⟩ .Tick).1 ≠
      some (.UserInputs []) := by
  refine ⟨rfl, ?_⟩
  decide

/-- C2 (amended): for every sequence of `N ≥ 1` input events buffered
since the last `Tick` (empty buffer at the start), buffering emits
nothing, and handling the following `Tick` produces a single `UserInputs`
event holding exactly those events in insertion order, leaving the buffer
empty; when `N = 0` the `Tick` produces no event. -/
theorem tick_flush_atomicity (m : EventsRev.TuiAppMiddleman)
    (inputs : List EventsRev.InputEvent)
    (hstart : m.input_buffer = [])
    (hne : inputs ≠ []) :
    (m.handle_tui_events (inputs.map .Input)).2 = [] ∧
    (m.handle_tui_events (inputs.map .Input)).1.input_buffer = inputs ∧
    (m.handle_tui_events (inputs.map .Input)).1.handle_tui_event .Tick =
      (some (.UserInputs inputs), ⟨[]⟩) ∧
    EventsRev.TuiAppMiddleman.handle_tui_event ⟨[]⟩ .Tick = (none, ⟨[]⟩) := by
  have h := handle_tui_events_inputs m inputs
  rw [hstart] at h
  simp only [List.nil_append] at h
  refine ⟨by rw [h], by rw [h], ?_, rfl⟩
  rw [h]
  simp [EventsRev.TuiAppMiddleman.handle_tui_event, hne]

/-- C2 witness: the amended flush at a concrete two-event buffer. -/
theorem tick_flush_atomicity_witness :
    ((⟨[]⟩ : EventsRev.TuiAppMiddleman).input_buffer = [] ∧
      sample_inputs ≠ []) ∧
    ((EventsRev.TuiAppMiddleman.handle_tui_events ⟨[]⟩
        (sample_inputs.map .Input)).2 = [] ∧
      (EventsRev.TuiAppMiddleman.handle_tui_events ⟨[]⟩
        (sample_inputs.map .Input)).1.input_buffer = sample_inputs ∧
      (EventsRev.TuiAppMiddleman.handle_tui_events ⟨[]⟩
        (sample_inputs.map .Input)).1.handle_tui_event .Tick =
        (some (.UserInputs sample_inputs), ⟨[]⟩) ∧
      EventsRev.TuiAppMiddleman.handle_tui_event ⟨[]⟩ .Tick =
        (none, ⟨[]⟩)) :=
  ⟨⟨rfl, by decide⟩,
    tick_flush_atomicity ⟨[]⟩ sample_inputs rfl (by decide)⟩

/-- C9: a `Tick` on an empty buffer emits no application event, and more
generally no trace of terminal events ever makes the middleman emit a
`UserInputs` event carrying an empty list. -/
theorem no_empty_user_inputs (m : EventsRev.TuiAppMiddleman)
    (events : List EventsRev.TuiEvent) :
    EventsRev.TuiAppMiddleman.handle_tui_event ⟨[]⟩ .Tick = (none, ⟨[]⟩) ∧
    ((m.handle_tui_events events).2.all
        EventsRev.AppEvent.nonempty_if_user_inputs) = true := by
  refine ⟨rfl, ?_⟩
  induction events generalizing m with
  | nil => simp [EventsRev.TuiAppMiddleman.handle_tui_events]
  | cons e rest ih =>
      cases e with
      | Tick =>
          by_cases hb : m.input_buffer.isEmpty <;>
            simp [EventsRev.TuiAppMiddleman.handle_tui_events,
              EventsRev.TuiAppMiddleman.handle_tui_event, hb, ih,
              EventsRev.AppEvent.nonempty_if_user_inputs]
      | _ =>
          simp [EventsRev.TuiAppMiddleman.handle_tui_events,
            EventsRev.TuiAppMiddleman.handle_tui_event,
            EventsRev.AppEvent.try_from_tui_event, Except.toOption, ih,
            EventsRev.AppEvent.nonempty_if_user_inputs]

/-- The loop body of `Tui::event_loop` never sends an `Init` event: only
the pre-loop send produces one. -/
theorem init_not_in_event_loop_body (branches : List TuiRs.LoopBranch) :
    TuiRs.TuiEvent.Init ∉ TuiRs.event_loop_body branches := by
  induction branches with
  | nil => simp [TuiRs.event_loop_body]
  | cons b rest ih =>
      cases b with
      | StreamItem e =>
          cases e <;> simp [TuiRs.event_loop_body, TuiRs.TuiEvent.from_crossterm, ih]
      | _ => simp [TuiRs.event_loop_body, ih]

/-- C7: for every trace of select outcomes, the terminal event loop sends
exactly one `Init` event and sends it first; on the application side the
handshake is consumed specially — `App::handle_tui_event` leaves the app
untouched on `Init`, the middleman turns `Hello` into no event, the
fallible `TuiEvent → AppEvent` conversion rejects `Hello` with an error,
and the infallible one has no value (panics) on `Init`. -/
theorem hello_handshake (branches : List TuiRs.LoopBranch) :
    (TuiRs.event_loop_sends branches).head? = some .Init ∧
    (TuiRs.event_loop_sends branches).count .Init = 1 ∧
    (∀ (m : EventsRev.TuiAppMiddleman),
      m.handle_tui_event .Hello = (none, m)) ∧
    (∀ (app : AppRs.App), app.handle_tui_event (some .Init) = app) ∧
    EventsRev.AppEvent.try_from_tui_event .Hello =
      .error "the tui said hi! unfortunately this is a language incomprehensible to AppEvent speakers." ∧
    AppRs.AppEvent.from_tui_event .Init = none := by
  refine ⟨rfl, ?_, fun m => rfl, fun app => rfl, rfl, rfl⟩
  have hmem := init_not_in_event_loop_body branches
  simp [TuiRs.event_loop_sends, List.count_cons, List.count_eq_zero.mpr hmem]

/-- `Handler::quit` leaves no screen behind. -/
theorem quit_screens_eq_nil {σ : Type} (close_hook : σ → σ)
    (h0 : CoreRev.ScreenHandler σ) :
    (CoreRev.Handler.quit close_hook h0).screens = [] := by
  generalize hn : h0.screens.length = n
  induction n using Nat.strong_induction_on generalizing h0 with
  | _ n IH =>
      rw [CoreRev.Handler.quit]
      split
      · next hemp =>
          simp only [List.isEmpty_iff] at hemp
          exact hemp
      · next hne =>
          simp only [List.isEmpty_iff] at hne
          have hpos : 0 < h0.screens.length := List.length_pos.mpr hne
          have hlen :
              ((h0.close_active_screen close_hook).1).screens.length <
                n := by
            simp only [CoreRev.ScreenHandler.close_active_screen,
              List.length_dropLast]
            omega
          exact IH _ hlen _ rfl

/-- C8: the pending-child slot overwrites — setting it twice keeps only
the most recent screen — and `Handler::handle_active_screen` consumes it
(`take()`), so the surviving copy of the active screen has an empty slot
and at most the one taken child is spawned in a single pass. -/
theorem pending_child_slot {σ : Type} (init_state : σ → CoreRev.ScreenState σ)
    (close_hook : σ → σ) (state : CoreRev.ScreenState σ) (a b : σ)
    (handler : CoreRev.ScreenHandler σ)
    (xs : List (CoreRev.ScreenAndState σ)) (active : CoreRev.ScreenAndState σ)
    (hscreens : handler.screens = xs ++ [active]) :
    ((state.set_screen_created a).set_screen_created b).screen_created =
      some b ∧
    (CoreRev.Handler.handle_active_screen init_state close_hook
        handler).1.screens =
      (if active.state.open_status = .Closed then xs
        else
          xs ++ [{ active with
                     state := { active.state with screen_created := none } }]) ++
        (active.state.screen_created.toList.map
          (CoreRev.ScreenAndState.new init_state)) ∧
    (CoreRev.Handler.handle_active_screen init_state close_hook
        handler).1.screens.length ≤ handler.screens.length + 1 := by
  have key :
      (CoreRev.Handler.handle_active_screen init_state close_hook
          handler).1.screens =
        (if active.state.open_status = .Closed then xs
          else
            xs ++ [{ active with
                       state := { active.state with
                                    screen_created := none } }]) ++
          (active.state.screen_created.toList.map
            (CoreRev.ScreenAndState.new init_state)) := by
    unfold CoreRev.Handler.handle_active_screen
    rw [hscreens, List.getLast?_concat]
    cases hopen : active.state.open_status <;>
      cases hcreated : active.state.screen_created <;>
        simp only [hopen, hcreated, CoreRev.ScreenHandler.close_active_screen,
          CoreRev.ScreenHandler.spawn_screen, List.dropLast_concat] <;>
        simp [List.dropLast_concat] <;>
        (try split) <;>
        simp_all [quit_screens_eq_nil]
  refine ⟨rfl, key, ?_⟩
  rw [key, hscreens]
  cases active.state.screen_created <;> split <;>
    simp [List.length_append] <;> omega

/-- C8 witness: one pass over a single screen whose slot holds screen `9`
spawns exactly that child and empties the slot. -/
theorem pending_child_slot_witness :
    ((⟨[sample_sas]⟩ : CoreRev.ScreenHandler Nat).screens =
      [] ++ [sample_sas]) ∧
    (((sample_init_state 0).set_screen_created 1).set_screen_created
        2).screen_created = some 2 ∧
    (CoreRev.Handler.handle_active_screen sample_init_state id
        ⟨[sample_sas]⟩).1.screens =
      (if sample_sas.state.open_status = .Closed then []
        else
          [] ++ [{ sample_sas with
                     state := { sample_sas.state with
                                  screen_created := none } }]) ++
        (sample_sas.state.screen_created.toList.map
          (CoreRev.ScreenAndState.new sample_init_state)) ∧
    (CoreRev.Handler.handle_active_screen sample_init_state id
        ⟨[sample_sas]⟩).1.screens.length ≤
      (⟨[sample_sas]⟩ : CoreRev.ScreenHandler Nat).screens.length + 1 :=
  ⟨rfl,
    pending_child_slot sample_init_state id (sample_init_state 0) 1 2
      ⟨[sample_sas]⟩ [] sample_sas rfl⟩

/-- Complete characterization of the `Tui::stop` wait loop, by downward
induction on the remaining time budget: either the task reads as finished
at some poll and the loop returns `Ok` then, or every poll up to the 200
ms hard bound fails and the loop returns the fatal error at 201 ms with
the abort issued. -/
theorem stop_loop_spec (finished : Nat → Bool) :
    ∀ (n timer : Nat) (aborting : Bool),
      200 - timer ≤ n → timer ≤ 200 → aborting = decide (100 < timer) →
      (∃ t, TuiRs.stop_loop finished timer aborting =
          ⟨.ok, t, decide (100 < t)⟩ ∧ timer ≤ t ∧ t ≤ 200 ∧
          finished t = true) ∨
      (TuiRs.stop_loop finished timer aborting = ⟨.fatal, 201, true⟩ ∧
        ∀ t, timer ≤ t → t ≤ 200 → finished t = false) := by
  intro n
  induction n with
  | zero =>
      intro timer aborting hbudget hle habort
      have ht : timer = 200 := by omega
      subst ht
      rw [TuiRs.stop_loop]
      by_cases hf : finished 200
      · left
        refine ⟨200, ?_, le_refl _, le_refl _, hf⟩
        rw [if_pos hf, habort]
      · right
        rw [if_neg hf]
        have h1 : ¬(100 < 200 + 1 ∧ aborting = false) := by
          rw [habort]
          simp
        rw [dif_neg h1, dif_pos (by omega : 200 < 200 + 1)]
        refine ⟨by rw [habort]; simp, ?_⟩
        intro t h200 hle2
        have : t = 200 := by omega
        subst this
        simpa using hf
  | succ n ih =>
      intro timer aborting hbudget hle habort
      rw [TuiRs.stop_loop]
      by_cases hf : finished timer
      · left
        refine ⟨timer, ?_, le_refl _, hle, hf⟩
        rw [if_pos hf, habort]
      · rw [if_neg hf]
        by_cases habort2 : 100 < timer + 1 ∧ aborting = false
        · have htimer : timer = 100 := by
            have : ¬(100 < timer) := by
              intro hgt
              rw [habort] at habort2
              simp [hgt] at habort2
            omega
          subst htimer
          rw [dif_pos habort2]
          rcases ih 101 true (by omega) (by omega) (by simp) with
            ⟨t, heq, hge, hle2, hfin⟩ | ⟨heq, hall⟩
          · left
            exact ⟨t, heq, by omega, hle2, hfin⟩
          · right
            refine ⟨heq, ?_⟩
            intro t hge hle2
            rcases Nat.lt_or_ge t 101 with hlt | hge2
            · have : t = 100 := by omega
              subst this
              simpa using hf
            · exact hall t hge2 hle2
        · rw [dif_neg habort2]
          by_cases h200 : 200 < timer + 1
          · rw [dif_pos h200]
            have htimer : timer = 200 := by omega
            subst htimer
            have habtrue : aborting = true := by
              rcases habort2' : aborting with _ | _
              · exact absurd ⟨by omega, habort2'⟩ habort2
              · rfl
            right
            refine ⟨by rw [habtrue], ?_⟩
            intro t hge hle2
            have : t = 200 := by omega
            subst this
            simpa using hf
          · rw [dif_neg h200]
            have hinv : aborting = decide (100 < timer + 1) := by
              rcases hab : aborting with _ | _
              · have : ¬(100 < timer + 1) := by
                  intro hgt
                  exact habort2 ⟨hgt, hab⟩
                simp [this]
              · rw [hab] at habort
                have hgt : 100 < timer := of_decide_eq_true habort.symm
                have hgt2 : 100 < timer + 1 := by omega
                simp [hgt2]
            rcases ih (timer + 1) aborting (by omega) (by omega) hinv with
              ⟨t, heq, hge, hle2, hfin⟩ | ⟨heq, hall⟩
            · left
              exact ⟨t, heq, by omega, hle2, hfin⟩
            · right
              refine ⟨heq, ?_⟩
              intro t hge hle2
              rcases Nat.lt_or_ge t (timer + 1) with hlt | hge2
              · have : t = timer := by omega
                subst this
                simpa using hf
              · exact hall t hge2 hle2

/-- C5: for every behavior of the event task, `Tui::stop` terminates and
either returns success at a poll (at most 200 ms in, abort issued exactly
when the soft 100 ms bound had already passed) where the task really is
finished, or — the task never having been observed finished within the
hard bound — returns the fatal "could not abort event task" error at
201 ms with the abort issued.  It never reports success while the task is
unfinished. -/
theorem shutdown_bound (finished : Nat → Bool) :
    (∃ t, TuiRs.stop finished = ⟨.ok, t, decide (100 < t)⟩ ∧ t ≤ 200 ∧
        finished t = true) ∨
    (TuiRs.stop finished = ⟨.fatal, 201, true⟩ ∧
      ∀ t, t ≤ 200 → finished t = false) := by
  rcases stop_loop_spec finished 200 0 false (by omega) (by omega)
      (by simp) with ⟨t, heq, _, hle, hfin⟩ | ⟨heq, hall⟩
  · exact Or.inl ⟨t, heq, hle, hfin⟩
  · exact Or.inr ⟨heq, fun t ht => hall t (Nat.zero_le t) ht⟩

end TerminalArcade
